import Mathlib

/-!
Shallow embedding of the trip state machine and live-position reconciliation
logic of the Real_Time_Bus_Tracking_System repository.

Sources embedded here:
* `src/models/Trip.js` — trip schema fields, the instance methods
  `startTrip`, `completeTrip`, `cancelTrip`, `updateOccupancy`, the
  `progressPercentage` virtual and the pre-save middleware.
* `src/models/Bus.js` (trip controller part) — the `startTrip`,
  `completeTrip` and `cancelTrip` request handlers' state checks.
* `src/controllers/busController.js` — `calculateNearestWaypoint`,
  `calculateDistance`, `toRadians` and `calculateETA`.

Modelling conventions: JavaScript numbers are embedded as `ℚ` where the
code only performs field arithmetic, and as `ℝ` for the trigonometric
haversine geometry.  Timestamps are milliseconds since the epoch (`ℚ`).
Division by zero, infinities and NaN — which `calculateETA` can produce —
are modelled by the `JSNum` carrier; `Date#toISOString` throwing on an
invalid date is modelled by the `ETAResult.invalidDate` outcome.
`Option` models JavaScript `undefined` for optional fields, and record
lookups by id are passed in as functions, standing for the persistence
collaborator.
-/

namespace BusTrack

/-- Trip status enumeration from `tripSchema.status` in `src/models/Trip.js`. -/
inductive TripStatus where
  | scheduled
  | inProgress
  | completed
  | cancelled
  | delayed
deriving DecidableEq

/-- Bus status enumeration from `busSchema.status` in `src/models/Bus.js`. -/
inductive BusStatus where
  | active
  | inactive
  | maintenance
deriving DecidableEq

/-- The `currentLocation` snapshot of a bus (`src/models/Bus.js`). -/
structure BusLocation where
  latitude : ℚ
  longitude : ℚ
  speed : ℚ
  heading : ℚ
  lastUpdated : ℚ
deriving DecidableEq

/-- The fields of a bus record used by the embedded logic (`src/models/Bus.js`). -/
structure Bus where
  capacity : ℕ
  status : BusStatus
  currentLocation : Option BusLocation
deriving DecidableEq

/-- Geographic coordinates of a waypoint (real-valued, for the haversine
geometry in `src/controllers/busController.js`). -/
structure Coordinates where
  latitude : ℝ
  longitude : ℝ

/-- A waypoint of a route (`routeSchema.waypoints` in `src/models/Route.js`). -/
structure Waypoint where
  name : String
  coordinates : Coordinates
  stopDuration : ℚ

/-- The fields of a route record used by the embedded logic
(`src/models/Route.js`): the waypoint sequence and the total distance in km. -/
structure Route where
  waypoints : List Waypoint
  distance : ℚ

/-- The fields of a trip record used by the embedded logic
(`tripSchema` in `src/models/Trip.js`).  `busId` keys the bus lookup.
`departureTime`, `estimatedArrival`, `actualDeparture`, `actualArrival`
are epoch milliseconds; the two actuals are unset (`undefined`) until the
trip progresses. -/
structure Trip where
  busId : ℕ
  status : TripStatus
  departureTime : ℚ
  estimatedArrival : ℚ
  actualDeparture : Option ℚ
  actualArrival : Option ℚ
  occupancy : ℕ
  delay : ℤ
  currentWaypoint : ℕ
  notes : Option String
deriving DecidableEq

/-- Errors surfaced by the lifecycle operations (§7 of the design):
illegal transition (HTTP 400 in the controllers), occupancy above bus
capacity (the `updateOccupancy` throw), unknown record id. -/
inductive TripError where
  | invalidState
  | capacityExceeded
  | notFound
deriving DecidableEq

/-- JavaScript `Math.round`: round half toward positive infinity. -/
def jsRound (q : ℚ) : ℤ := ⌊q + 1 / 2⌋

/-- JavaScript truthiness of an optional string: `undefined` and `""` are
falsy, every other string is truthy. -/
def strTruthy : Option String → Bool
  | none => false
  | some s => s ≠ ""

/-- The pre-save middleware of `tripSchema` (`src/models/Trip.js` lines
252-264), the spec's `deriveStatusFromClock`: a trip still `scheduled`
whose departure time has passed flips to `in-progress`, setting
`actualDeparture` to now when unset. -/
def preSave (now : ℚ) (t : Trip) : Trip :=
  if t.status = TripStatus.scheduled ∧ t.departureTime ≤ now then
    { t with
      status := TripStatus.inProgress,
      actualDeparture := if t.actualDeparture.isNone then some now else t.actualDeparture }
  else t

/-- `document.save()` as seen by the lifecycle logic: the pre-save
middleware runs, then the record persists. -/
def saveTrip (now : ℚ) (t : Trip) : Trip := preSave now t

/-- Instance method `tripSchema.methods.startTrip` (`src/models/Trip.js`
lines 179-183): set status to `in-progress` and `actualDeparture` to now,
then save. -/
def startTripMethod (now : ℚ) (t : Trip) : Trip :=
  saveTrip now
    { t with status := TripStatus.inProgress, actualDeparture := some now }

/-- Instance method `tripSchema.methods.completeTrip` (`src/models/Trip.js`
lines 186-196): set status to `completed`, `actualArrival` to now, and
derive `delay = Math.round((actualArrival - estimatedArrival) / (1000*60))`.
`estimatedArrival` is a required field, so the JavaScript truthiness guard
around the delay computation always holds. -/
def completeTripMethod (now : ℚ) (t : Trip) : Trip :=
  saveTrip now
    { t with
      status := TripStatus.completed,
      actualArrival := some now,
      delay := jsRound ((now - t.estimatedArrival) / (1000 * 60)) }

/-- Instance method `tripSchema.methods.cancelTrip` (`src/models/Trip.js`
lines 199-205): set status to `cancelled` and, when a truthy reason is
given, append it to `notes` (or initialize `notes` when those are falsy). -/
def cancelTripMethod (reason : String) (now : ℚ) (t : Trip) : Trip :=
  saveTrip now
    { t with
      status := TripStatus.cancelled,
      notes :=
        if reason ≠ "" then
          some (if strTruthy t.notes then t.notes.getD "" ++ ". Cancelled: " ++ reason
                else "Cancelled: " ++ reason)
        else t.notes }

/-- Instance method `tripSchema.methods.updateOccupancy` (`src/models/Trip.js`
lines 208-215).  `findBus` stands for `Bus.findById`; the method persists the
new occupancy when the bus exists and the occupancy fits its capacity, and
throws `'Occupancy exceeds bus capacity'` otherwise — including when the
bus id resolves to no bus at all. -/
def updateOccupancy (findBus : ℕ → Option Bus) (now : ℚ) (t : Trip) (n : ℕ) :
    Except TripError Trip :=
  match findBus t.busId with
  | some bus =>
      if n ≤ bus.capacity then Except.ok (saveTrip now { t with occupancy := n })
      else Except.error TripError.capacityExceeded
  | none => Except.error TripError.capacityExceeded

/-- Controller `startTrip` (trip controller, `src/models/Bus.js` part,
lines 487-516): reject unless the trip is `scheduled` and the linked bus
is `active`, then run the model's `startTrip` method. -/
def startTripController (trip : Trip) (bus : Bus) (now : ℚ) : Except TripError Trip :=
  if trip.status ≠ TripStatus.scheduled then Except.error TripError.invalidState
  else if bus.status ≠ BusStatus.active then Except.error TripError.invalidState
  else Except.ok (startTripMethod now trip)

/-- Controller `completeTrip` (trip controller, lines 540-565): reject
unless the trip is `in-progress`, then run the model's `completeTrip`. -/
def completeTripController (trip : Trip) (now : ℚ) : Except TripError Trip :=
  if trip.status ≠ TripStatus.inProgress then Except.error TripError.invalidState
  else Except.ok (completeTripMethod now trip)

/-- Controller `cancelTrip` (trip controller, lines 598-624): reject when
the trip is already `completed` or `cancelled`, then run the model's
`cancelTrip` with the request's reason (`undefined` becomes `""` through
the method's default parameter). -/
def cancelTripController (trip : Trip) (reason : String) (now : ℚ) :
    Except TripError Trip :=
  if trip.status = TripStatus.completed ∨ trip.status = TripStatus.cancelled then
    Except.error TripError.invalidState
  else Except.ok (cancelTripMethod reason now trip)

/-- The `progressPercentage` virtual of `tripSchema` (`src/models/Trip.js`
lines 165-176).  The `route` argument stands for the populated `route`
virtual (`none` when not populated). -/
def progressPercentage (t : Trip) (route : Option Route) : ℤ :=
  if t.status = TripStatus.scheduled then 0
  else if t.status = TripStatus.completed then 100
  else if t.status = TripStatus.cancelled then 0
  else
    match route with
    | none => 0
    | some r =>
        if r.waypoints.length = 0 then 50
        else jsRound ((t.currentWaypoint : ℚ) / (r.waypoints.length : ℚ) * 100)

/-- JavaScript double values as produced by the ETA arithmetic: a finite
value (exact rational idealization), the two infinities, or NaN. -/
inductive JSNum where
  | num (q : ℚ)
  | posInf
  | negInf
  | nan
deriving DecidableEq

/-- JavaScript `+` on `JSNum`. -/
def jadd : JSNum → JSNum → JSNum
  | JSNum.num a, JSNum.num b => JSNum.num (a + b)
  | JSNum.num _, JSNum.posInf => JSNum.posInf
  | JSNum.num _, JSNum.negInf => JSNum.negInf
  | JSNum.posInf, JSNum.num _ => JSNum.posInf
  | JSNum.negInf, JSNum.num _ => JSNum.negInf
  | JSNum.posInf, JSNum.posInf => JSNum.posInf
  | JSNum.negInf, JSNum.negInf => JSNum.negInf
  | _, _ => JSNum.nan

/-- JavaScript `-` on `JSNum`. -/
def jsub : JSNum → JSNum → JSNum
  | JSNum.num a, JSNum.num b => JSNum.num (a - b)
  | JSNum.num _, JSNum.posInf => JSNum.negInf
  | JSNum.num _, JSNum.negInf => JSNum.posInf
  | JSNum.posInf, JSNum.num _ => JSNum.posInf
  | JSNum.negInf, JSNum.num _ => JSNum.negInf
  | JSNum.posInf, JSNum.negInf => JSNum.posInf
  | JSNum.negInf, JSNum.posInf => JSNum.negInf
  | _, _ => JSNum.nan

/-- JavaScript `*` on `JSNum` (zero times an infinity is NaN). -/
def jmul : JSNum → JSNum → JSNum
  | JSNum.num a, JSNum.num b => JSNum.num (a * b)
  | JSNum.num a, JSNum.posInf =>
      if 0 < a then JSNum.posInf else if a < 0 then JSNum.negInf else JSNum.nan
  | JSNum.num a, JSNum.negInf =>
      if 0 < a then JSNum.negInf else if a < 0 then JSNum.posInf else JSNum.nan
  | JSNum.posInf, JSNum.num b =>
      if 0 < b then JSNum.posInf else if b < 0 then JSNum.negInf else JSNum.nan
  | JSNum.negInf, JSNum.num b =>
      if 0 < b then JSNum.negInf else if b < 0 then JSNum.posInf else JSNum.nan
  | JSNum.posInf, JSNum.posInf => JSNum.posInf
  | JSNum.negInf, JSNum.negInf => JSNum.posInf
  | JSNum.posInf, JSNum.negInf => JSNum.negInf
  | JSNum.negInf, JSNum.posInf => JSNum.negInf
  | _, _ => JSNum.nan

/-- JavaScript `/` on `JSNum`: a nonzero finite value divided by (positive)
zero yields an infinity of the numerator's sign, and `0 / 0` is NaN.  The
divisors arising in the embedded code are nonnegative, so positive zero
suffices. -/
def jdiv : JSNum → JSNum → JSNum
  | JSNum.num a, JSNum.num b =>
      if b = 0 then
        (if a = 0 then JSNum.nan else if 0 < a then JSNum.posInf else JSNum.negInf)
      else JSNum.num (a / b)
  | JSNum.num _, JSNum.posInf => JSNum.num 0
  | JSNum.num _, JSNum.negInf => JSNum.num 0
  | JSNum.posInf, JSNum.num b => if 0 ≤ b then JSNum.posInf else JSNum.negInf
  | JSNum.negInf, JSNum.num b => if 0 ≤ b then JSNum.negInf else JSNum.posInf
  | _, _ => JSNum.nan

/-- Outcome of `calculateETA`: the early `null` return, a RangeError from
`toISOString` on an invalid date (non-finite or out-of-range time value),
or a valid timestamp in epoch milliseconds. -/
inductive ETAResult where
  | null
  | invalidDate
  | eta (ms : ℚ)
deriving DecidableEq

/-- The largest magnitude of a valid JavaScript `Date` time value
(8,640,000,000,000,000 ms); `new Date(t)` is an invalid date beyond it. -/
def maxTimeValue : ℚ := 8640000000000000

/-- Helper `calculateETA` (`src/controllers/busController.js` lines
959-970): `null` unless the populated bus has a location snapshot and the
trip is `in-progress`; otherwise project the remaining distance from the
waypoint index, assume 50 km/h, and build the arrival `Date` from
`Date.now()` plus the remaining minutes. -/
def calculateETA (trip : Trip) (bus : Bus) (route : Route) (now : ℚ) : ETAResult :=
  if bus.currentLocation.isNone ∨ trip.status ≠ TripStatus.inProgress then
    ETAResult.null
  else
    let remainingDistance :=
      jmul (JSNum.num route.distance)
        (jsub (JSNum.num 1)
          (jdiv (JSNum.num (trip.currentWaypoint : ℚ))
            (JSNum.num (route.waypoints.length : ℚ))))
    let remainingTimeMinutes := jmul (jdiv remainingDistance (JSNum.num 50)) (JSNum.num 60)
    match jadd (JSNum.num now) (jmul remainingTimeMinutes (JSNum.num 60000)) with
    | JSNum.num q => if |q| ≤ maxTimeValue then ETAResult.eta q else ETAResult.invalidDate
    | _ => ETAResult.invalidDate

/-- Helper `toRadians` (`src/controllers/busController.js` lines 952-954). -/
noncomputable def toRadians (degrees : ℝ) : ℝ := degrees * (Real.pi / 180)

/-- JavaScript `Math.atan2 y x`, idealized as the principal argument of the
complex number `x + y*i` (range `(-π, π]`). -/
noncomputable def atan2 (y x : ℝ) : ℝ := Complex.arg ⟨x, y⟩

/-- Helper `calculateDistance` (`src/controllers/busController.js` lines
936-947): great-circle distance by the haversine formula with Earth radius
6371 km. -/
noncomputable def calculateDistance (lat1 lng1 lat2 lng2 : ℝ) : ℝ :=
  let R : ℝ := 6371
  let dLat := toRadians (lat2 - lat1)
  let dLng := toRadians (lng2 - lng1)
  let a :=
    Real.sin (dLat / 2) * Real.sin (dLat / 2) +
      Real.cos (toRadians lat1) * Real.cos (toRadians lat2) *
        Real.sin (dLng / 2) * Real.sin (dLng / 2)
  let c := 2 * atan2 (Real.sqrt a) (Real.sqrt (1 - a))
  R * c

/-- Distance from a fix to one waypoint, exactly the call the
`calculateNearestWaypoint` loop body makes. -/
noncomputable def wpDist (lat lng : ℝ) (w : Waypoint) : ℝ :=
  calculateDistance lat lng w.coordinates.latitude w.coordinates.longitude

/-- `Number.MAX_VALUE`, the initial `minDistance` of the nearest-waypoint
scan. -/
noncomputable def jsMaxValue : ℝ := 17976931348623157 * 10 ^ 292

/-- The `forEach` accumulation of `calculateNearestWaypoint`: state is the
pair (nearestIndex, minDistance), and each (index, waypoint) entry with a
strictly smaller distance replaces it. -/
noncomputable def nearestLoop {α : Type} (d : α → ℝ) (l : List (ℕ × α)) (st : ℕ × ℝ) :
    ℕ × ℝ :=
  l.foldl (fun st p => if d p.2 < st.2 then (p.1, d p.2) else st) st

/-- Helper `calculateNearestWaypoint` (`src/controllers/busController.js`
lines 913-931): index of the waypoint nearest to the fix, scanning the
waypoints in order starting from `(0, Number.MAX_VALUE)`. -/
noncomputable def calculateNearestWaypoint (lat lng : ℝ) (waypoints : List Waypoint) : ℕ :=
  (nearestLoop (wpDist lat lng) waypoints.enum (0, jsMaxValue)).1

/-- A sample location fix for witness scenarios. -/
def demoFix : BusLocation :=
  { latitude := 7, longitude := 80, speed := 40, heading := 90, lastUpdated := 0 }

/-- An active bus with a location snapshot, capacity 50. -/
def busActive : Bus :=
  { capacity := 50, status := BusStatus.active, currentLocation := some demoFix }

/-- An active bus that has never reported a fix. -/
def busNoFix : Bus :=
  { capacity := 50, status := BusStatus.active, currentLocation := none }

/-- A bus under maintenance. -/
def busMaintenance : Bus :=
  { capacity := 50, status := BusStatus.maintenance, currentLocation := some demoFix }

/-- A bus store holding `busActive` under id 1, standing for `Bus.findById`. -/
def demoStore : ℕ → Option Bus := fun i => if i = 1 then some busActive else none

/-- A bus store in which no id resolves. -/
def emptyStore : ℕ → Option Bus := fun _ => none

/-- Four equally spaced waypoints on one meridian inside the service region. -/
noncomputable def demoWaypoints : List Waypoint :=
  [{ name := "Colombo", coordinates := { latitude := 6, longitude := 80 }, stopDuration := 5 },
   { name := "Kurunegala", coordinates := { latitude := 7, longitude := 80 }, stopDuration := 5 },
   { name := "Anuradhapura", coordinates := { latitude := 8, longitude := 80 }, stopDuration := 5 },
   { name := "Vavuniya", coordinates := { latitude := 9, longitude := 80 }, stopDuration := 5 }]

/-- A 100 km route over the four demo waypoints. -/
noncomputable def demoRoute : Route := { waypoints := demoWaypoints, distance := 100 }

/-- A 100 km route whose waypoint list is empty. -/
def emptyRoute : Route := { waypoints := [], distance := 100 }

/-- An in-progress trip of bus 1: departed at epoch 0, estimated arrival
180 minutes later, currently at waypoint index 2. -/
def tripInProgress : Trip :=
  { busId := 1, status := TripStatus.inProgress, departureTime := 0,
    estimatedArrival := 10800000, actualDeparture := some 0, actualArrival := none,
    occupancy := 10, delay := 0, currentWaypoint := 2, notes := some "On time" }

/-- A trip still `scheduled` although its departure time (epoch 1000) has
passed. -/
def tripScheduledPast : Trip :=
  { busId := 1, status := TripStatus.scheduled, departureTime := 1000,
    estimatedArrival := 10800000, actualDeparture := none, actualArrival := none,
    occupancy := 0, delay := 0, currentWaypoint := 0, notes := none }

/-- A completed trip that had passed 1 of the 4 waypoints when completed. -/
def tripCompleted : Trip :=
  { busId := 1, status := TripStatus.completed, departureTime := 0,
    estimatedArrival := 10800000, actualDeparture := some 0,
    actualArrival := some 11400000, occupancy := 10, delay := 10,
    currentWaypoint := 1, notes := none }

/-- The haversine intermediate `a` of `calculateDistance`, named for the
correctness lemmas below. -/
noncomputable def haverA (lat1 lng1 lat2 lng2 : ℝ) : ℝ :=
  Real.sin (toRadians (lat2 - lat1) / 2) * Real.sin (toRadians (lat2 - lat1) / 2) +
    Real.cos (toRadians lat1) * Real.cos (toRadians lat2) *
      Real.sin (toRadians (lng2 - lng1) / 2) * Real.sin (toRadians (lng2 - lng1) / 2)

/-- Default waypoint used only to state index lookups totally. -/
noncomputable def wpDefault : Waypoint :=
  { name := "", coordinates := { latitude := 0, longitude := 0 }, stopDuration := 5 }

/-- C5: `deriveStatusFromClock` (the trip pre-save middleware) flips a
`scheduled` trip whose departure time has passed to `in-progress`, setting
`actualDeparture` to now exactly when it was unset; running it again on the
resulting `in-progress` record is a no-op, and it never changes an
`in-progress`, `completed` or `cancelled` trip. -/
theorem deriveStatusFromClock_spec (t : Trip) (now : ℚ) :
    (t.status = TripStatus.scheduled → t.departureTime ≤ now →
      (preSave now t).status = TripStatus.inProgress ∧
      (preSave now t).actualDeparture =
        (if t.actualDeparture.isNone then some now else t.actualDeparture) ∧
      ∀ later, preSave later (preSave now t) = preSave now t) ∧
    (t.status = TripStatus.inProgress → preSave now t = t) ∧
    (t.status = TripStatus.completed → preSave now t = t) ∧
    (t.status = TripStatus.cancelled → preSave now t = t) := by
  refine ⟨fun h1 h2 => ?_, fun h => ?_, fun h => ?_, fun h => ?_⟩
  · rw [preSave, if_pos ⟨h1, h2⟩]
    refine ⟨rfl, rfl, fun later => ?_⟩
    rw [preSave]
    simp
  · rw [preSave, if_neg]
    simp [h]
  · rw [preSave, if_neg]
    simp [h]
  · rw [preSave, if_neg]
    simp [h]

/-- Witness for C5: the scheduled trip with departure time 1000 flips to
`in-progress` at now = 2000 with `actualDeparture = 2000`, and a second
application at 5000 changes nothing. -/
theorem deriveStatusFromClock_witness :
    tripScheduledPast.status = TripStatus.scheduled ∧
    tripScheduledPast.departureTime ≤ 2000 ∧
    (preSave 2000 tripScheduledPast).status = TripStatus.inProgress ∧
    (preSave 2000 tripScheduledPast).actualDeparture = some 2000 ∧
    preSave 5000 (preSave 2000 tripScheduledPast) = preSave 2000 tripScheduledPast := by
  obtain ⟨h1, h2, h3⟩ :=
    (deriveStatusFromClock_spec tripScheduledPast 2000).1 rfl (by norm_num [tripScheduledPast])
  exact ⟨rfl, by norm_num [tripScheduledPast], h1, by rw [h2]; rfl, h3 5000⟩

/-- C4: `complete(trip)` succeeds exactly on an `in-progress` trip, setting
status to `completed`, `actualArrival` to now and
`delay = round((actualArrival - estimatedArrival) / 60000)`; every other
status is rejected with the invalid-state error. -/
theorem completeTrip_spec (t : Trip) (now : ℚ) :
    (t.status = TripStatus.inProgress →
      ∃ t2, completeTripController t now = Except.ok t2 ∧
        t2.status = TripStatus.completed ∧ t2.actualArrival = some now ∧
        t2.delay = jsRound ((now - t.estimatedArrival) / 60000)) ∧
    (t.status ≠ TripStatus.inProgress →
      completeTripController t now = Except.error TripError.invalidState) := by
  constructor
  · intro h
    refine ⟨completeTripMethod now t, ?_, ?_, ?_, ?_⟩
    · simp [completeTripController, h]
    · simp [completeTripMethod, saveTrip, preSave]
    · simp [completeTripMethod, saveTrip, preSave]
    · simp [completeTripMethod, saveTrip, preSave]
      norm_num
  · intro h
    simp [completeTripController, h]

/-- Witness for C4: completing the in-progress trip with estimated arrival
at minute 180 at actual minute 190 yields delay 10. -/
theorem completeTrip_witness :
    tripInProgress.status = TripStatus.inProgress ∧
    ∃ t2, completeTripController tripInProgress 11400000 = Except.ok t2 ∧
      t2.status = TripStatus.completed ∧ t2.actualArrival = some 11400000 ∧
      t2.delay = 10 := by
  obtain ⟨t2, h1, h2, h3, h4⟩ := (completeTrip_spec tripInProgress 11400000).1 rfl
  refine ⟨rfl, t2, h1, h2, h3, ?_⟩
  rw [h4]
  norm_num [jsRound, tripInProgress]

/-- C6: `start(trip)` succeeds exactly on a `scheduled` trip whose bus is
`active`, setting status to `in-progress` and `actualDeparture` to now; a
trip in any other status, or an inactive bus, is rejected with the
invalid-state error before any mutation. -/
theorem startTrip_spec (t : Trip) (bus : Bus) (now : ℚ) :
    (t.status = TripStatus.scheduled → bus.status = BusStatus.active →
      ∃ t2, startTripController t bus now = Except.ok t2 ∧
        t2.status = TripStatus.inProgress ∧ t2.actualDeparture = some now) ∧
    (t.status ≠ TripStatus.scheduled →
      startTripController t bus now = Except.error TripError.invalidState) ∧
    (bus.status ≠ BusStatus.active →
      startTripController t bus now = Except.error TripError.invalidState) := by
  refine ⟨fun h1 h2 => ?_, fun h => ?_, fun h => ?_⟩
  · refine ⟨startTripMethod now t, ?_, ?_, ?_⟩
    · simp [startTripController, h1, h2]
    · simp [startTripMethod, saveTrip, preSave]
    · simp [startTripMethod, saveTrip, preSave]
  · simp [startTripController, h]
  · by_cases h1 : t.status = TripStatus.scheduled
    · simp [startTripController, h1, h]
    · simp [startTripController, h1]

/-- Witness for C6: starting the overdue scheduled trip on the active bus
succeeds with `actualDeparture = 2000`, while starting the in-progress trip
and starting on the maintenance bus both fail with the invalid-state error. -/
theorem startTrip_witness :
    (∃ t2, startTripController tripScheduledPast busActive 2000 = Except.ok t2 ∧
      t2.status = TripStatus.inProgress ∧ t2.actualDeparture = some 2000) ∧
    startTripController tripInProgress busActive 2000 =
      Except.error TripError.invalidState ∧
    startTripController tripScheduledPast busMaintenance 2000 =
      Except.error TripError.invalidState := by
  refine ⟨(startTrip_spec tripScheduledPast busActive 2000).1 rfl rfl,
    (startTrip_spec tripInProgress busActive 2000).2.1 (by decide),
    (startTrip_spec tripScheduledPast busMaintenance 2000).2.2 (by decide)⟩

/-- C7: `cancel(trip, reason)` succeeds exactly when the trip is neither
`completed` nor `cancelled`, setting status to `cancelled`; a truthy reason
is appended after the existing notes, and cancelling the resulting record
again fails with the invalid-state error rather than silently succeeding. -/
theorem cancelTrip_spec (t : Trip) (reason : String) (now : ℚ) :
    (t.status ≠ TripStatus.completed → t.status ≠ TripStatus.cancelled →
      ∃ t2, cancelTripController t reason now = Except.ok t2 ∧
        t2.status = TripStatus.cancelled ∧
        (∀ s, t.notes = some s → s ≠ "" → reason ≠ "" →
          t2.notes = some (s ++ ". Cancelled: " ++ reason)) ∧
        (∀ r2 later, cancelTripController t2 r2 later =
          Except.error TripError.invalidState)) ∧
    (t.status = TripStatus.completed ∨ t.status = TripStatus.cancelled →
      cancelTripController t reason now = Except.error TripError.invalidState) := by
  constructor
  · intro h1 h2
    refine ⟨cancelTripMethod reason now t, ?_, ?_, fun s hs hs2 hr => ?_, fun r2 later => ?_⟩
    · simp [cancelTripController, h1, h2]
    · simp [cancelTripMethod, saveTrip, preSave]
    · simp [cancelTripMethod, saveTrip, preSave, hr, strTruthy, hs, hs2]
    · have hst : (cancelTripMethod reason now t).status = TripStatus.cancelled := by
        simp [cancelTripMethod, saveTrip, preSave]
      simp [cancelTripController, hst]
  · intro h
    simp [cancelTripController, h]

/-- Witness for C7: cancelling the in-progress trip with reason
"Breakdown" appends to the prior notes, and a second cancel fails. -/
theorem cancelTrip_witness :
    ∃ t2, cancelTripController tripInProgress "Breakdown" 5000 = Except.ok t2 ∧
      t2.status = TripStatus.cancelled ∧
      t2.notes = some "On time. Cancelled: Breakdown" ∧
      cancelTripController t2 "again" 6000 = Except.error TripError.invalidState := by
  obtain ⟨t2, h1, h2, h3, h4⟩ :=
    (cancelTrip_spec tripInProgress "Breakdown" 5000).1 (by decide) (by decide)
  exact ⟨t2, h1, h2, h3 "On time" rfl (by decide) (by decide), h4 "again" 6000⟩

/-- C8: with the trip's bus id resolving to a bus, `setOccupancy(trip, n)`
persists occupancy `n` whenever `n ≤ capacity` — the boundary `n = capacity`
included — and fails with the capacity-exceeded error whenever
`n > capacity`. -/
theorem setOccupancy_spec (findBus : ℕ → Option Bus) (t : Trip) (n : ℕ) (now : ℚ)
    (bus : Bus) (hdb : findBus t.busId = some bus) :
    (n ≤ bus.capacity →
      ∃ t2, updateOccupancy findBus now t n = Except.ok t2 ∧ t2.occupancy = n) ∧
    (bus.capacity < n →
      updateOccupancy findBus now t n = Except.error TripError.capacityExceeded) := by
  constructor
  · intro h
    refine ⟨saveTrip now { t with occupancy := n }, ?_, ?_⟩
    · simp [updateOccupancy, hdb, h]
    · rw [saveTrip, preSave]
      split <;> rfl
  · intro h
    simp [updateOccupancy, hdb, Nat.not_le.mpr h]

/-- Witness for C8: on the capacity-50 bus, occupancy 50 is accepted and
persisted while occupancy 51 is rejected. -/
theorem setOccupancy_witness :
    (∃ t2, updateOccupancy demoStore 5000 tripInProgress 50 = Except.ok t2 ∧
      t2.occupancy = 50) ∧
    updateOccupancy demoStore 5000 tripInProgress 51 =
      Except.error TripError.capacityExceeded := by
  refine ⟨(setOccupancy_spec demoStore tripInProgress 50 5000 busActive rfl).1 (by decide),
    (setOccupancy_spec demoStore tripInProgress 51 5000 busActive rfl).2 (by decide)⟩

/-- C9: when the trip's bus id resolves to no bus, `updateOccupancy` throws
the capacity-exceeded error for every requested occupancy — 0 included —
rather than a not-found error, and no occupancy is persisted. -/
theorem updateOccupancy_missing_bus (findBus : ℕ → Option Bus) (t : Trip) (now : ℚ)
    (hdb : findBus t.busId = none) (n : ℕ) :
    updateOccupancy findBus now t n = Except.error TripError.capacityExceeded := by
  simp [updateOccupancy, hdb]

/-- Witness for C9: with an empty bus store even occupancy 0 raises the
capacity-exceeded error, which is distinct from the not-found error. -/
theorem updateOccupancy_missing_bus_witness :
    updateOccupancy emptyStore 5000 tripInProgress 0 =
      Except.error TripError.capacityExceeded ∧
    TripError.capacityExceeded ≠ TripError.notFound := by
  exact ⟨updateOccupancy_missing_bus emptyStore tripInProgress 5000 rfl 0, by decide⟩

/-- C3 counterexample: the `progressPercentage` virtual reports 50 — not
0 — for an in-progress trip whose route has no waypoints, and it reports
100 for a completed trip regardless of the round formula, which gives 25
at waypoint 1 of 4. -/
theorem progressPercentage_counterexample :
    progressPercentage tripInProgress (some emptyRoute) = 50 ∧ (50 : ℤ) ≠ 0 ∧
    progressPercentage tripCompleted (some demoRoute) = 100 ∧
    jsRound ((tripCompleted.currentWaypoint : ℚ) / (demoRoute.waypoints.length : ℚ) * 100)
      = 25 ∧ (100 : ℤ) ≠ 25 := by
  refine ⟨by decide, by decide, ?_, ?_, by decide⟩
  · simp [progressPercentage, tripCompleted]
  · have hlen : demoRoute.waypoints.length = 4 := by simp [demoRoute, demoWaypoints]
    rw [hlen]
    norm_num [jsRound, tripCompleted]

/-- C3 amended: for an in-progress or delayed trip, the reported progress
percentage equals `round(currentWaypoint / totalWaypoints * 100)` when the
populated route has at least one waypoint, is 50% when the route has no
waypoints and 0% when no route is populated; scheduled and cancelled trips
always report 0% and completed trips always report 100%. -/
theorem progressPercentage_spec (t : Trip) (r : Route) :
    (t.status = TripStatus.inProgress ∨ t.status = TripStatus.delayed →
      (r.waypoints.length = 0 → progressPercentage t (some r) = 50) ∧
      (r.waypoints.length ≠ 0 →
        progressPercentage t (some r) =
          jsRound ((t.currentWaypoint : ℚ) / (r.waypoints.length : ℚ) * 100)) ∧
      progressPercentage t none = 0) ∧
    (t.status = TripStatus.scheduled → ∀ ro, progressPercentage t ro = 0) ∧
    (t.status = TripStatus.completed → ∀ ro, progressPercentage t ro = 100) ∧
    (t.status = TripStatus.cancelled → ∀ ro, progressPercentage t ro = 0) := by
  refine ⟨fun h => ?_, fun h ro => ?_, fun h ro => ?_, fun h ro => ?_⟩
  · rcases h with h | h <;>
      exact ⟨fun hl => by simp [progressPercentage, h, hl],
        fun hl => by simp [progressPercentage, h, hl],
        by simp [progressPercentage, h]⟩
  · simp [progressPercentage, h]
  · simp [progressPercentage, h]
  · simp [progressPercentage, h]

/-- Witness for C3 amended: the in-progress trip at waypoint 2 of the
4-waypoint route reports 50%, the same trip over the empty-waypoint route
reports 50%, and a scheduled trip reports 0%. -/
theorem progressPercentage_spec_witness :
    progressPercentage tripInProgress (some demoRoute) = 50 ∧
    progressPercentage tripInProgress (some emptyRoute) = 50 ∧
    progressPercentage tripScheduledPast (some demoRoute) = 0 := by
  obtain ⟨he, hf, -⟩ := (progressPercentage_spec tripInProgress demoRoute).1 (Or.inl rfl)
  have hlen : demoRoute.waypoints.length = 4 := by simp [demoRoute, demoWaypoints]
  refine ⟨?_, ?_, ?_⟩
  · rw [hf (by rw [hlen]; norm_num), hlen]
    norm_num [jsRound, tripInProgress]
  · exact ((progressPercentage_spec tripInProgress emptyRoute).1 (Or.inl rfl)).1 rfl
  · exact (progressPercentage_spec tripScheduledPast demoRoute).2.1 rfl (some demoRoute)

/-- C2: `estimateArrival` returns null exactly when the trip is not
`in-progress` or the bus has no location fix; otherwise, whenever the
route has at least one waypoint and the projected time value is a valid
date, it returns `now + remainingTimeMinutes` milliseconds where
`remainingDistance = distance * (1 - currentWaypoint / waypointCount)` and
`remainingTimeMinutes = remainingDistance / 50 * 60` at the fixed assumed
speed of 50 km/h. -/
theorem calculateETA_spec (trip : Trip) (bus : Bus) (route : Route) (now : ℚ) :
    (calculateETA trip bus route now = ETAResult.null ↔
      bus.currentLocation = none ∨ trip.status ≠ TripStatus.inProgress) ∧
    (bus.currentLocation.isSome → trip.status = TripStatus.inProgress →
      route.waypoints.length ≠ 0 →
      |now + route.distance *
          (1 - (trip.currentWaypoint : ℚ) / (route.waypoints.length : ℚ)) / 50 * 60 * 60000|
        ≤ maxTimeValue →
      calculateETA trip bus route now =
        ETAResult.eta (now + route.distance *
          (1 - (trip.currentWaypoint : ℚ) / (route.waypoints.length : ℚ)) / 50 * 60 * 60000)) := by
  constructor
  · constructor
    · intro h
      by_contra hg
      push_neg at hg
      rw [calculateETA, if_neg (by simp [hg.1, hg.2])] at h
      rcases hj : jadd (JSNum.num now)
          (jmul (jmul (jdiv (jmul (JSNum.num route.distance)
            (jsub (JSNum.num 1)
              (jdiv (JSNum.num (trip.currentWaypoint : ℚ))
                (JSNum.num (route.waypoints.length : ℚ))))) (JSNum.num 50))
            (JSNum.num 60)) (JSNum.num 60000)) with q | _ | _ | _ <;>
        simp only [hj] at h <;> first
          | (split at h <;> exact absurd h (by simp))
          | exact absurd h (by simp)
    · intro h
      rw [calculateETA, if_pos (by rcases h with h | h <;> simp [h])]
  · intro hloc hst hw habs
    obtain ⟨loc, hl⟩ := Option.isSome_iff_exists.mp hloc
    rw [calculateETA, if_neg (by simp [hl, hst])]
    have hlen : (route.waypoints.length : ℚ) ≠ 0 := Nat.cast_ne_zero.mpr hw
    simp only [jdiv, jsub, jmul, jadd, if_neg hlen, if_neg (by norm_num : (50 : ℚ) ≠ 0)]
    rw [if_pos habs]

/-- Witness for C2: on the 100 km route with 4 waypoints, current waypoint
2 and now = 0, the ETA is 3,600,000 ms ahead — 50 km remaining and 60
remaining minutes. -/
theorem calculateETA_witness :
    calculateETA tripInProgress busActive demoRoute 0 = ETAResult.eta 3600000 ∧
    (3600000 : ℚ) = 60 * 60000 ∧
    demoRoute.distance * (1 - (tripInProgress.currentWaypoint : ℚ) /
      (demoRoute.waypoints.length : ℚ)) = 50 := by
  have hlen : demoRoute.waypoints.length = 4 := by simp [demoRoute, demoWaypoints]
  have hq : (0 : ℚ) + demoRoute.distance * (1 - (tripInProgress.currentWaypoint : ℚ) /
      (demoRoute.waypoints.length : ℚ)) / 50 * 60 * 60000 = 3600000 := by
    rw [hlen]
    norm_num [demoRoute, tripInProgress]
  have h := (calculateETA_spec tripInProgress busActive demoRoute 0).2 rfl rfl
    (by rw [hlen]; norm_num) (by rw [hq]; norm_num [maxTimeValue])
  refine ⟨h.trans (congrArg ETAResult.eta hq), by norm_num, ?_⟩
  rw [hlen]
  norm_num [demoRoute, tripInProgress]

/-- C10: for an in-progress trip with a location fix but an empty waypoint
list, `calculateETA` does not return null: the waypoint-count division is
unguarded, the projected time value is non-finite, and the arrival date is
invalid rather than a well-defined timestamp. -/
theorem calculateETA_empty_waypoints (trip : Trip) (bus : Bus) (route : Route)
    (now : ℚ) (hloc : bus.currentLocation.isSome)
    (hst : trip.status = TripStatus.inProgress) (hw : route.waypoints = []) :
    calculateETA trip bus route now = ETAResult.invalidDate ∧
    calculateETA trip bus route now ≠ ETAResult.null := by
  obtain ⟨loc, hl⟩ := Option.isSome_iff_exists.mp hloc
  have hcalc : calculateETA trip bus route now = ETAResult.invalidDate := by
    rw [calculateETA, if_neg (by simp [hl, hst])]
    simp only [hw, List.length_nil, Nat.cast_zero]
    by_cases hcw : (trip.currentWaypoint : ℚ) = 0
    · simp [jdiv, jsub, jmul, jadd, hcw]
    · have hpos : 0 < (trip.currentWaypoint : ℚ) :=
        lt_of_le_of_ne (Nat.cast_nonneg _) (Ne.symm hcw)
      rcases lt_trichotomy route.distance 0 with hd | hd | hd
      · simp [jdiv, jsub, jmul, jadd, hcw, hpos, hd, not_lt.mpr hd.le]
      · simp [jdiv, jsub, jmul, jadd, hcw, hpos, hd]
      · simp [jdiv, jsub, jmul, jadd, hcw, hpos, hd, not_lt.mpr hd.le]
  exact ⟨hcalc, by rw [hcalc]; simp⟩

/-- Witness for C10: the in-progress trip of the fix-reporting bus over the
route with no waypoints yields an invalid date, not null. -/
theorem calculateETA_empty_waypoints_witness :
    calculateETA tripInProgress busActive emptyRoute 0 = ETAResult.invalidDate ∧
    calculateETA tripInProgress busActive emptyRoute 0 ≠ ETAResult.null :=
  calculateETA_empty_waypoints tripInProgress busActive emptyRoute 0 rfl rfl rfl

theorem atan2_nonneg (y x : ℝ) (hy : 0 ≤ y) : 0 ≤ atan2 y x :=
  Complex.arg_nonneg_iff.mpr hy

theorem atan2_le_pi (y x : ℝ) : atan2 y x ≤ Real.pi :=
  Complex.arg_le_pi _

theorem atan2_pos (y x : ℝ) (hy : 0 < y) : 0 < atan2 y x := by
  have hne : (⟨x, y⟩ : ℂ) ≠ 0 := by
    intro h
    rw [Complex.ext_iff] at h
    exact absurd h.2 (ne_of_gt hy)
  have hsin : Real.sin (atan2 y x) = y / Complex.abs ⟨x, y⟩ := Complex.sin_arg _
  have habs : 0 < Complex.abs ⟨x, y⟩ := Complex.abs.pos hne
  have hs : 0 < Real.sin (atan2 y x) := by
    rw [hsin]
    exact div_pos hy habs
  by_contra h
  push_neg at h
  have : Real.sin (atan2 y x) ≤ 0 :=
    Real.sin_nonpos_of_nonnpos_of_neg_pi_le h (le_of_lt (Complex.neg_pi_lt_arg _))
  linarith

theorem calculateDistance_eq (lat1 lng1 lat2 lng2 : ℝ) :
    calculateDistance lat1 lng1 lat2 lng2 =
      6371 * (2 * atan2 (Real.sqrt (haverA lat1 lng1 lat2 lng2))
        (Real.sqrt (1 - haverA lat1 lng1 lat2 lng2))) :=
  rfl

theorem calculateDistance_nonneg (lat1 lng1 lat2 lng2 : ℝ) :
    0 ≤ calculateDistance lat1 lng1 lat2 lng2 := by
  rw [calculateDistance_eq]
  have h := atan2_nonneg (Real.sqrt (haverA lat1 lng1 lat2 lng2))
    (Real.sqrt (1 - haverA lat1 lng1 lat2 lng2)) (Real.sqrt_nonneg _)
  linarith

theorem calculateDistance_lt_maxValue (lat1 lng1 lat2 lng2 : ℝ) :
    calculateDistance lat1 lng1 lat2 lng2 < jsMaxValue := by
  rw [calculateDistance_eq, jsMaxValue]
  have h1 := atan2_le_pi (Real.sqrt (haverA lat1 lng1 lat2 lng2))
    (Real.sqrt (1 - haverA lat1 lng1 lat2 lng2))
  have h2 := Real.pi_le_four
  have h3 : (1 : ℝ) ≤ 10 ^ 292 := by norm_num
  nlinarith

theorem calculateDistance_self (lat lng : ℝ) : calculateDistance lat lng lat lng = 0 := by
  rw [calculateDistance_eq]
  have ha : haverA lat lng lat lng = 0 := by
    simp [haverA, toRadians]
  have h1 : (⟨(1 : ℝ), (0 : ℝ)⟩ : ℂ) = 1 := by
    apply Complex.ext <;> simp
  rw [ha, atan2, Real.sqrt_zero, sub_zero, Real.sqrt_one, h1, Complex.arg_one]
  ring

theorem calculateDistance_pos_of_haverA_pos (lat1 lng1 lat2 lng2 : ℝ)
    (h : 0 < haverA lat1 lng1 lat2 lng2) :
    0 < calculateDistance lat1 lng1 lat2 lng2 := by
  rw [calculateDistance_eq]
  have h2 := atan2_pos (Real.sqrt (haverA lat1 lng1 lat2 lng2))
    (Real.sqrt (1 - haverA lat1 lng1 lat2 lng2)) (Real.sqrt_pos.mpr h)
  linarith

theorem haverA_same_lng (lat1 lat2 lng : ℝ) :
    haverA lat1 lng lat2 lng =
      Real.sin (toRadians (lat2 - lat1) / 2) * Real.sin (toRadians (lat2 - lat1) / 2) := by
  simp [haverA, toRadians]

theorem calculateDistance_pos_same_lng (lat1 lat2 lng : ℝ)
    (h : Real.sin (toRadians (lat2 - lat1) / 2) ≠ 0) :
    0 < calculateDistance lat1 lng lat2 lng := by
  apply calculateDistance_pos_of_haverA_pos
  rw [haverA_same_lng]
  exact mul_self_pos.mpr h

theorem sin_toRadians_half_pos (x : ℝ) (h0 : 0 < x) (h1 : x < 360) :
    0 < Real.sin (toRadians x / 2) := by
  have hx : toRadians x / 2 = x * (Real.pi / 360) := by
    rw [toRadians]
    ring
  rw [hx]
  have hpi := Real.pi_pos
  apply Real.sin_pos_of_pos_of_lt_pi
  · positivity
  · nlinarith

theorem sin_toRadians_half_ne_zero (x : ℝ) (h0 : x ≠ 0) (h1 : |x| < 360) :
    Real.sin (toRadians x / 2) ≠ 0 := by
  rcases h0.lt_or_lt with h | h
  · have habs : -x < 360 := by
      rw [abs_of_neg h] at h1
      exact h1
    have hpos : 0 < Real.sin (toRadians (-x) / 2) :=
      sin_toRadians_half_pos (-x) (by linarith) habs
    have hneg : toRadians x / 2 = -(toRadians (-x) / 2) := by
      rw [toRadians, toRadians]
      ring
    rw [hneg, Real.sin_neg]
    exact neg_ne_zero.mpr (ne_of_gt hpos)
  · exact ne_of_gt (sin_toRadians_half_pos x h (by rwa [abs_of_pos h] at h1))

theorem nearestLoop_spec {α : Type} (d : α → ℝ) (l : List α) (n bi : ℕ) (bd : ℝ) :
    (nearestLoop d (List.enumFrom n l) (bi, bd) = (bi, bd) ∧ ∀ a ∈ l, bd ≤ d a) ∨
    (∃ j, ∃ hj : j < l.length,
      nearestLoop d (List.enumFrom n l) (bi, bd) = (n + j, d (l.get ⟨j, hj⟩)) ∧
      d (l.get ⟨j, hj⟩) < bd ∧
      (∀ i, ∀ hi : i < l.length, d (l.get ⟨j, hj⟩) ≤ d (l.get ⟨i, hi⟩)) ∧
      (∀ i, ∀ hi : i < j, d (l.get ⟨j, hj⟩) < d (l.get ⟨i, Nat.lt_trans hi hj⟩))) := by
  induction l generalizing n bi bd with
  | nil =>
    left
    exact ⟨rfl, by simp⟩
  | cons a t ih =>
    have hunfold : nearestLoop d (List.enumFrom n (a :: t)) (bi, bd) =
        nearestLoop d (List.enumFrom (n + 1) t)
          (if d a < bd then (n, d a) else (bi, bd)) := by
      simp only [List.enumFrom, nearestLoop, List.foldl_cons]
    rw [hunfold]
    by_cases hda : d a < bd
    · rw [if_pos hda]
      rcases ih (n + 1) n (d a) with ⟨heq, hall⟩ | ⟨j, hj, heq, hlt, hmin, hfirst⟩
      · right
        refine ⟨0, Nat.succ_pos _, ?_, hda, ?_, ?_⟩
        · rw [heq]
          simp
        · intro i hi
          cases i with
          | zero => exact le_refl _
          | succ i2 =>
            exact hall _ (List.get_mem t i2 (Nat.lt_of_succ_lt_succ hi))
        · intro i hi
          exact absurd hi (Nat.not_lt_zero i)
      · right
        refine ⟨j + 1, Nat.succ_lt_succ hj, ?_, lt_trans hlt hda, ?_, ?_⟩
        · rw [heq]
          have harith : n + 1 + j = n + (j + 1) := by omega
          rw [harith]
          rfl
        · intro i hi
          cases i with
          | zero => exact le_of_lt hlt
          | succ i2 => exact hmin i2 (Nat.lt_of_succ_lt_succ hi)
        · intro i hi
          cases i with
          | zero => exact hlt
          | succ i2 => exact hfirst i2 (Nat.lt_of_succ_lt_succ hi)
    · rw [if_neg hda]
      rcases ih (n + 1) bi bd with ⟨heq, hall⟩ | ⟨j, hj, heq, hlt, hmin, hfirst⟩
      · left
        refine ⟨heq, fun x hx => ?_⟩
        rcases List.mem_cons.mp hx with h | h
        · rw [h]
          exact le_of_not_lt hda
        · exact hall x h
      · right
        have hba : d (t.get ⟨j, hj⟩) < d a :=
          lt_of_lt_of_le hlt (le_of_not_lt hda)
        refine ⟨j + 1, Nat.succ_lt_succ hj, ?_, hlt, ?_, ?_⟩
        · rw [heq]
          have harith : n + 1 + j = n + (j + 1) := by omega
          rw [harith]
          rfl
        · intro i hi
          cases i with
          | zero => exact le_of_lt hba
          | succ i2 => exact hmin i2 (Nat.lt_of_succ_lt_succ hi)
        · intro i hi
          cases i with
          | zero => exact hba
          | succ i2 => exact hfirst i2 (Nat.lt_of_succ_lt_succ hi)

/-- C1: on a non-empty waypoint list, `calculateNearestWaypoint` returns a
valid index whose haversine distance (Earth radius 6371 km) to the fix is
minimal, every strictly smaller index has strictly greater distance (so the
lowest index wins exact ties), and a fix exactly at waypoint 2's
coordinates — with waypoints 0 and 1 at positive distance — selects
index 2. -/
theorem calculateNearestWaypoint_spec (lat lng : ℝ) (wps : List Waypoint)
    (hne : wps ≠ []) :
    calculateNearestWaypoint lat lng wps < wps.length ∧
    (∀ i, i < wps.length →
      wpDist lat lng (wps.getD (calculateNearestWaypoint lat lng wps) wpDefault) ≤
        wpDist lat lng (wps.getD i wpDefault)) ∧
    (∀ i, i < calculateNearestWaypoint lat lng wps →
      wpDist lat lng (wps.getD (calculateNearestWaypoint lat lng wps) wpDefault) <
        wpDist lat lng (wps.getD i wpDefault)) ∧
    (2 < wps.length →
      lat = (wps.getD 2 wpDefault).coordinates.latitude →
      lng = (wps.getD 2 wpDefault).coordinates.longitude →
      0 < wpDist lat lng (wps.getD 0 wpDefault) →
      0 < wpDist lat lng (wps.getD 1 wpDefault) →
      calculateNearestWaypoint lat lng wps = 2) := by
  rcases nearestLoop_spec (wpDist lat lng) wps 0 0 jsMaxValue with
    ⟨heq, hall⟩ | ⟨j, hj, heq, hlt, hmin, hfirst⟩
  · obtain ⟨a, t, rfl⟩ := List.exists_cons_of_ne_nil hne
    have h1 := hall a (List.mem_cons_self a t)
    have h2 : wpDist lat lng a < jsMaxValue :=
      calculateDistance_lt_maxValue lat lng a.coordinates.latitude a.coordinates.longitude
    linarith
  · have hk : calculateNearestWaypoint lat lng wps = j := by
      show (nearestLoop (wpDist lat lng) wps.enum (0, jsMaxValue)).1 = j
      have henum : wps.enum = List.enumFrom 0 wps := rfl
      rw [henum, heq]
      simp
    have hmin2 : ∀ i, ∀ hi : i < wps.length,
        wpDist lat lng (wps.getD j wpDefault) ≤ wpDist lat lng (wps.getD i wpDefault) := by
      intro i hi
      rw [List.getD_eq_get wps wpDefault hj, List.getD_eq_get wps wpDefault hi]
      exact hmin i hi
    have hfirst2 : ∀ i, ∀ hi : i < j,
        wpDist lat lng (wps.getD j wpDefault) < wpDist lat lng (wps.getD i wpDefault) := by
      intro i hi
      rw [List.getD_eq_get wps wpDefault hj,
        List.getD_eq_get wps wpDefault (Nat.lt_trans hi hj)]
      exact hfirst i hi
    refine ⟨by rw [hk]; exact hj,
      by intro i hi; rw [hk]; exact hmin2 i hi,
      by intro i hi; rw [hk] at hi ⊢; exact hfirst2 i hi, ?_⟩
    intro h2 hlat hlng hpos0 hpos1
    have hd2 : wpDist lat lng (wps.getD 2 wpDefault) = 0 := by
      show calculateDistance lat lng (wps.getD 2 wpDefault).coordinates.latitude
        (wps.getD 2 wpDefault).coordinates.longitude = 0
      rw [← hlat, ← hlng]
      exact calculateDistance_self lat lng
    have hnn : 0 ≤ wpDist lat lng (wps.getD j wpDefault) :=
      calculateDistance_nonneg lat lng _ _
    have hj2 : j ≤ 2 := by
      by_contra hgt
      push_neg at hgt
      have h3 := hfirst2 2 hgt
      rw [hd2] at h3
      linarith
    have hjmin : wpDist lat lng (wps.getD j wpDefault) = 0 := by
      have h3 := hmin2 2 h2
      rw [hd2] at h3
      linarith
    have hj0 : j ≠ 0 := by
      intro h0
      rw [h0] at hjmin
      linarith
    have hj1 : j ≠ 1 := by
      intro h0
      rw [h0] at hjmin
      linarith
    rw [hk]
    omega

/-- Witness for C1: a fix at the coordinates of waypoint 2 of the four
demo waypoints selects index 2. -/
theorem calculateNearestWaypoint_witness :
    calculateNearestWaypoint 8 80 demoWaypoints = 2 := by
  have hspec := calculateNearestWaypoint_spec 8 80 demoWaypoints (by simp [demoWaypoints])
  refine hspec.2.2.2 (by norm_num [demoWaypoints]) rfl rfl ?_ ?_
  · show 0 < calculateDistance 8 80 6 80
    apply calculateDistance_pos_same_lng
    apply sin_toRadians_half_ne_zero
    · norm_num
    · norm_num
  · show 0 < calculateDistance 8 80 7 80
    apply calculateDistance_pos_same_lng
    apply sin_toRadians_half_ne_zero
    · norm_num
    · norm_num

end BusTrack
